import Mathlib

/-!
Verification development for the chiptune music player of the puzzle
repository (src/chiptune-music.js, ESM build: createPlayer and helpers).
The JavaScript is shallowly embedded: the mutable closure state of
createPlayer becomes the structure PlayerState, every control operation
becomes a pure state transformer, one iteration of the scheduling while
loop becomes scheduleStep, and the periodic timer callback with its
try/catch becomes scheduleTick over an explicit note-emission oracle.
JavaScript numbers are modelled as rationals, except where NaN behaviour
is observable (clamp01/setVolume), where the type JNum adds a NaN value
with IEEE comparison semantics (every comparison against NaN is false).
-/

namespace Chiptune

/-- A JavaScript number as observed by clamp01/setVolume: NaN or a finite
value (finite values modelled as rationals). -/
inductive JNum where
  | nan : JNum
  | fin (q : ℚ) : JNum
deriving DecidableEq, Repr

/-- IEEE-style strict less-than on JNum: any comparison involving NaN is
false, mirroring the JavaScript < operator. -/
def JNum.jlt : JNum → JNum → Bool
  | JNum.fin a, JNum.fin b => decide (a < b)
  | _, _ => false

/-- Embeds clamp01 from the source: if (x < 0) return 0; if (x > 1)
return 1; return x. The x > 1 test is 1 < x. -/
def clamp01 (x : JNum) : JNum :=
  if JNum.jlt x (JNum.fin 0) then JNum.fin 0
  else if JNum.jlt (JNum.fin 1) x then JNum.fin 1
  else x

/-- A note object: midi may be absent/null (rest), dur may be absent
(defaults to 1 beat at use sites). -/
structure Note where
  midi : Option Int
  dur : Option ℚ
deriving DecidableEq, Repr

/-- A tune entry of a playlist: optional name, melody, bass, tempo and
instrument fields, matching the object shape read by setTuneByIndex. -/
structure Tune where
  name : Option String
  melody : Option (List Note)
  bass : Option (List Note)
  tempo : Option ℚ
  instrument : Option String
deriving DecidableEq, Repr

/-- The mutable closure state of createPlayer. ctx/masterGain/musicGain
are collapsed into the flag hasCtx (the audio graph itself is outside the
model); audioSupported models whether globalThis.AudioContext exists;
timerActive models timerId being non-null; log collects the strings sent
to the logging sink in order. -/
structure PlayerState where
  audioSupported : Bool
  melody : List Note
  bass : List Note
  playlist : Option (List Tune)
  shufflePlaylist : Bool
  playlistOrder : Option (List Nat)
  playlistPos : Nat
  currentTuneName : Option String
  tempo : ℚ
  scheduleAheadSec : ℚ
  hasCtx : Bool
  volume : JNum
  enabled : Bool
  muted : Bool
  isPlaying : Bool
  timerActive : Bool
  melodyPos : Nat
  bassPos : Nat
  nextNoteTime : ℚ
  currentInstrument : String
  log : List String
deriving DecidableEq, Repr

/-- The shuffleArray call sites depend on Math.random; a shuffler function
stands in for one concrete draw of randomness. -/
abbrev Shuffler := List Nat → List Nat

/-- Appends one diagnostic string to the log sink. -/
def logMsg (m : String) (s : PlayerState) : PlayerState :=
  { s with log := s.log ++ [m] }

/-- Embeds setTempo: only numbers strictly between 20 and 400 are
accepted; everything else is silently ignored. none stands for a
non-number argument. -/
def setTempo (bpm : Option ℚ) (s : PlayerState) : PlayerState :=
  match bpm with
  | some b => if 20 < b ∧ b < 400 then { s with tempo := b } else s
  | none => s

/-- Embeds setTuneByIndex(idx, silent): looks up playlist[idx]; a missing
tune is a no-op; otherwise melody/bass/tempo/instrument are overwritten
when present on the tune, the tune name is recorded, and both cursors are
reset to 0. -/
def setTuneByIndex (i : Nat) (silent : Bool) (s : PlayerState) : PlayerState :=
  match s.playlist with
  | none => s
  | some pl =>
    if pl.isEmpty then s
    else
      match pl.get? i with
      | none => s
      | some t =>
        let s1 := { s with melody := t.melody.getD s.melody,
                           bass := t.bass.getD s.bass }
        let s2 := setTempo t.tempo s1
        let s3 := { s2 with currentInstrument := t.instrument.getD s2.currentInstrument }
        let nm := t.name.getD ("tune-" ++ toString i)
        let s4 := { s3 with currentTuneName := some nm, melodyPos := 0, bassPos := 0 }
        if silent then s4
        else logMsg ("Tune -> " ++ nm ++ " (" ++ s4.currentInstrument ++ ")") s4

/-- Embeds initPlaylistIfNeeded: builds the traversal order (range of the
playlist length, shuffled when the shuffle flag is set) when absent, and
loads the current tune only when the active melody is empty. -/
def initPlaylistIfNeeded (shuf : Shuffler) (s : PlayerState) : PlayerState :=
  match s.playlist with
  | none => s
  | some pl =>
    if pl.isEmpty then s
    else
      let s1 :=
        match s.playlistOrder with
        | some _ => s
        | none =>
          let base := List.range pl.length
          let ord := if s.shufflePlaylist then shuf base else base
          { s with playlistOrder := some ord, playlistPos := 0 }
      if s1.melody.isEmpty then
        match (s1.playlistOrder.getD []).get? s1.playlistPos with
        | some i => setTuneByIndex i true s1
        | none => s1
      else s1

/-- Embeds nextTune: advances playlistPos, wrapping to 0 (and reshuffling
the order when the shuffle flag is set) when the order is exhausted, then
loads the tune at the new position. -/
def nextTune (shuf : Shuffler) (s : PlayerState) : PlayerState :=
  match s.playlist with
  | none => s
  | some pl =>
    if pl.isEmpty then s
    else
      let s1 := initPlaylistIfNeeded shuf s
      match s1.playlistOrder with
      | none => s1
      | some ord =>
        let pos := s1.playlistPos + 1
        let s2 :=
          if pos ≥ ord.length then
            { s1 with playlistPos := 0,
                      playlistOrder := some (if s1.shufflePlaylist then shuf ord else ord) }
          else { s1 with playlistPos := pos }
        match (s2.playlistOrder.getD []).get? s2.playlistPos with
        | some i => setTuneByIndex i false s2
        | none => s2

/-- Embeds ensure(): returns the updated state and the boolean result.
When a context already exists it succeeds; without audio support it logs
and fails; otherwise it creates the context (hasCtx := true) and logs. -/
def ensure (s : PlayerState) : PlayerState × Bool :=
  if s.hasCtx then (s, true)
  else if s.audioSupported = false then
    (logMsg "Web Audio API not supported (no AudioContext)" s, false)
  else (logMsg "AudioContext created" { s with hasCtx := true }, true)

/-- Embeds setVolume(v): volume = clamp01(typeof v === number ? v : volume).
none stands for a non-number argument. The gain-node side effect is part
of the audio graph and outside the model. -/
def setVolume (v : Option JNum) (s : PlayerState) : PlayerState :=
  { s with volume := clamp01 (v.getD s.volume) }

/-- Embeds stop(): a no-op when not playing; otherwise clears the playing
flag, cancels the timer and logs. -/
def stop (s : PlayerState) : PlayerState :=
  if s.isPlaying = false then s
  else logMsg "Music stopped" { s with isPlaying := false, timerActive := false }

/-- Embeds setMuted(m): records the flag and forces stop() when muting. -/
def setMuted (m : Bool) (s : PlayerState) : PlayerState :=
  let s1 := { s with muted := m }
  if m then stop s1 else s1

/-- Embeds setEnabled(e): records the flag and forces stop() when
disabling. -/
def setEnabled (e : Bool) (s : PlayerState) : PlayerState :=
  let s1 := { s with enabled := e }
  if e then s1 else stop s1

/-- The argument shape of setSequence: optional melody, bass and tempo
fields. -/
structure SeqUpdate where
  melody : Option (List Note)
  bass : Option (List Note)
  tempo : Option ℚ
deriving DecidableEq, Repr

/-- Embeds setSequence(seq): a no-op on a falsy argument; otherwise
overwrites melody/bass when arrays are present and applies setTempo. -/
def setSequence (seq : Option SeqUpdate) (s : PlayerState) : PlayerState :=
  match seq with
  | none => s
  | some u =>
    setTempo u.tempo { s with melody := u.melody.getD s.melody,
                              bass := u.bass.getD s.bass }

/-- Embeds setPlaylist(pl, shuffle): replaces the catalogue, resets the
traversal order and position and the current tune name, then initialises
the playlist when non-empty. none stands for a non-array argument. -/
def setPlaylist (pl : Option (List Tune)) (shuffle : Bool) (shuf : Shuffler)
    (s : PlayerState) : PlayerState :=
  let s1 := { s with playlist := pl, shufflePlaylist := shuffle,
                     playlistOrder := none, playlistPos := 0,
                     currentTuneName := none }
  match pl with
  | some l =>
    if l.isEmpty then logMsg "Playlist cleared" s1
    else logMsg "Playlist set" (initPlaylistIfNeeded shuf s1)
  | none => logMsg "Playlist cleared" s1

/-- Embeds start(now): no-op when already playing, disabled or muted;
creates the context if needed (aborting on failure); initialises the
playlist; then flags playing, resets both cursors, seeds nextNoteTime at
now + 0.05 and arms the timer. The fire-and-forget unlock() call inside
start only touches the audio context resume state, outside the model. -/
def start (now : ℚ) (shuf : Shuffler) (s : PlayerState) : PlayerState :=
  if s.isPlaying then s
  else if s.enabled = false then logMsg "start skipped: disabled" s
  else if s.muted then logMsg "start skipped: muted" s
  else
    let p := ensure s
    if p.2 = false then p.1
    else
      let s2 := initPlaylistIfNeeded shuf p.1
      logMsg "Music started"
        { s2 with isPlaying := true, melodyPos := 0, bassPos := 0,
                  nextNoteTime := now + 1/20, timerActive := true }

/-- Embeds destroy(): stop, close the context (errors swallowed) and null
out the context references. -/
def destroy (s : PlayerState) : PlayerState :=
  let s1 := stop s
  { s1 with hasCtx := false }

/-- Construction options of createPlayer; none stands for an absent or
wrongly typed field, matching the Array.isArray / typeof guards. -/
structure Options where
  melody : Option (List Note)
  bass : Option (List Note)
  playlist : Option (List Tune)
  shufflePlaylist : Bool
  tempo : Option ℚ
  volume : Option JNum
  scheduleAheadSec : Option ℚ
deriving Repr

/-- Embeds the createPlayer initialisation of the closure state; the
audioSupported argument records whether the runtime has AudioContext. -/
def mkPlayer (o : Options) (audioSupported : Bool) : PlayerState :=
  { audioSupported := audioSupported
    melody := o.melody.getD []
    bass := o.bass.getD []
    playlist := o.playlist
    shufflePlaylist := o.shufflePlaylist
    playlistOrder := none
    playlistPos := 0
    currentTuneName := none
    tempo := o.tempo.getD 120
    scheduleAheadSec := o.scheduleAheadSec.getD (12/100)
    hasCtx := false
    volume := match o.volume with
      | some v => clamp01 v
      | none => JNum.fin (22/100)
    enabled := true
    muted := false
    isPlaying := false
    timerActive := false
    melodyPos := 0
    bassPos := 0
    nextNoteTime := 0
    currentInstrument := "flute"
    log := [] }

/-- The payload handed to playOscNote for one note: the pitch index (the
frequency passed is midiToFreq of it), instrument tag, absolute start
time, duration in seconds and target gain. -/
structure Emitted where
  midi : Int
  instrument : String
  startTime : ℚ
  durationSec : ℚ
  gain : ℚ
deriving DecidableEq, Repr

/-- The melody note read by one iteration of the scheduling loop:
melody.length ? melody[melodyPos] : null, with an out-of-range read
yielding undefined, both modelled as none. -/
def currentMelodyNote (s : PlayerState) : Option Note :=
  if s.melody.isEmpty then none else s.melody.get? s.melodyPos

/-- The bass note read by one iteration of the scheduling loop. -/
def currentBassNote (s : PlayerState) : Option Note :=
  if s.bass.isEmpty then none else s.bass.get? s.bassPos

/-- durBeats of the loop iteration: the melody note dur when it is a
number, else 1 (also when there is no melody note). -/
def melodyDurBeats (s : PlayerState) : ℚ :=
  ((currentMelodyNote s).bind Note.dur).getD 1

/-- bDurBeats of the loop iteration for the bass note at hand. -/
def bassDurBeats (s : PlayerState) : ℚ :=
  ((currentBassNote s).bind Note.dur).getD 1

/-- durSec of the loop iteration, by which nextNoteTime advances:
durBeats * (60 / tempo). -/
def stepDurSec (s : PlayerState) : ℚ :=
  melodyDurBeats s * (60 / s.tempo)

/-- The playOscNote call for the melody note of one iteration: emitted
only when the note exists, its midi is non-null and the context exists
(playOscNote returns early without a context); duration is durSec * 0.98
and gain 0.06. -/
def melodyEmission (s : PlayerState) : Option Emitted :=
  match currentMelodyNote s with
  | none => none
  | some n =>
    match n.midi with
    | none => none
    | some p =>
      if s.hasCtx then
        some { midi := p, instrument := s.currentInstrument,
               startTime := s.nextNoteTime,
               durationSec := stepDurSec s * (98/100), gain := 6/100 }
      else none

/-- The playOscNote call for the bass note of one iteration: duration is
bDurBeats * secondsPerBeat * 0.95 and gain 0.04. -/
def bassEmission (s : PlayerState) : Option Emitted :=
  match currentBassNote s with
  | none => none
  | some n =>
    match n.midi with
    | none => none
    | some p =>
      if s.hasCtx then
        some { midi := p, instrument := s.currentInstrument,
               startTime := s.nextNoteTime,
               durationSec := bassDurBeats s * (60 / s.tempo) * (95/100),
               gain := 4/100 }
      else none

/-- The melody-cursor advance of one iteration: increment; on wraparound
reset to 0 and, when a playlist object is present (JavaScript truthiness:
any non-null array), call nextTune. -/
def advanceMelodyCursor (shuf : Shuffler) (s : PlayerState) : PlayerState :=
  if s.melody.isEmpty then s
  else if s.melodyPos + 1 ≥ s.melody.length then
    let s1 := { s with melodyPos := 0 }
    if s1.playlist.isSome then nextTune shuf s1 else s1
  else { s with melodyPos := s.melodyPos + 1 }

/-- The bass-cursor advance of one iteration: increment, wrapping to 0 on
reaching the end; it never triggers a tune change. -/
def advanceBassCursor (s : PlayerState) : PlayerState :=
  if s.bass.isEmpty then s
  else if s.bassPos + 1 ≥ s.bass.length then { s with bassPos := 0 }
  else { s with bassPos := s.bassPos + 1 }

/-- The result of one iteration of the scheduling while loop: the updated
state and the zero-or-one melody and bass notes handed to playOscNote. -/
structure StepOut where
  state : PlayerState
  melNote : Option Emitted
  bassNote : Option Emitted
deriving Repr

/-- One iteration of the while loop inside schedule(): read both current
notes, emit them at the current nextNoteTime, advance nextNoteTime by
durSec, then advance the melody cursor (possibly advancing the tune) and
the bass cursor. The emissions read the pre-update state, as in the
source, where they happen before any cursor mutation. -/
def scheduleStep (shuf : Shuffler) (s : PlayerState) : StepOut :=
  { state := advanceBassCursor (advanceMelodyCursor shuf
      { s with nextNoteTime := s.nextNoteTime + stepDurSec s })
    melNote := melodyEmission s
    bassNote := bassEmission s }

/-- Emission of an optional note through the audio backend oracle; a rest
emits nothing and cannot fail. -/
def emitOpt (emit : Emitted → Except String Unit) : Option Emitted → Except String Unit
  | none => Except.ok ()
  | some e => emit e

/-- The while loop of schedule(), with fuel bounding the number of
iterations (the source loop runs while nextNoteTime is inside the
lookahead window). An exception from the audio backend aborts the loop,
carrying the message and the state at the moment of the throw (the
iteration mutates state only after both emissions). -/
def scheduleTickAux (emit : Emitted → Except String Unit) (shuf : Shuffler)
    (now : ℚ) : Nat → PlayerState → Except (String × PlayerState) PlayerState
  | 0, s => Except.ok s
  | fuel + 1, s =>
    if s.nextNoteTime < now + s.scheduleAheadSec then
      let o := scheduleStep shuf s
      match emitOpt emit o.melNote with
      | Except.error msg => Except.error (msg, s)
      | Except.ok _ =>
        match emitOpt emit o.bassNote with
        | Except.error msg => Except.error (msg, s)
        | Except.ok _ => scheduleTickAux emit shuf now fuel o.state
    else Except.ok s

/-- Embeds schedule(), one timer callback: a no-op without a context or
when not playing; otherwise runs the loop inside try/catch -- a caught
exception is logged to the sink and playback is stopped. now is
ctx.currentTime at the callback. -/
def scheduleTick (emit : Emitted → Except String Unit) (shuf : Shuffler)
    (now : ℚ) (fuel : Nat) (s : PlayerState) : PlayerState :=
  if s.hasCtx = false ∨ s.isPlaying = false then s
  else
    match scheduleTickAux emit shuf now fuel s with
    | Except.ok s1 => s1
    | Except.error (msg, se) => stop (logMsg ("schedule error: " ++ msg) se)

/-- Embeds midiToFreq: 440 * Math.pow(2, (midi - 69) / 12), over the
reals. -/
noncomputable def midiToFreq (m : Int) : ℝ :=
  440 * (2 : ℝ) ^ (((m : ℝ) - 69) / 12)

/-- Spec-side comparator for the volume claim: whether a stored volume is
a finite value inside the closed interval [0, 1], the range the spec says
setVolume clamps numbers into. -/
def specVolumeInUnit : JNum → Bool
  | JNum.nan => false
  | JNum.fin q => decide (0 ≤ q ∧ q ≤ 1)

/-- A state with the log emptied, for comparing states up to logging. -/
def stripLog (s : PlayerState) : PlayerState := { s with log := [] }

/-- n scheduled steps in sequence (the emitted notes are dropped; only
the state evolution matters here). -/
def runSteps (shuf : Shuffler) : Nat → PlayerState → PlayerState
  | 0, s => s
  | n + 1, s => runSteps shuf n (scheduleStep shuf s).state

/-! Concrete notes, tunes, option records and states used by the
counterexamples and witnesses below. -/

/-- A one-beat note at pitch 69 (concert A). -/
def noteA : Note := { midi := some 69, dur := some 1 }

/-- A one-beat note at pitch 60 (middle C). -/
def noteC : Note := { midi := some 60, dur := some 1 }

/-- A one-beat note at pitch 72. -/
def noteHiC : Note := { midi := some 72, dur := some 1 }

/-- A minimal configuration: one-note melody, no bass, no playlist,
tempo 120. -/
def optsBase : Options :=
  { melody := some [noteA], bass := none, playlist := none,
    shufflePlaylist := false, tempo := some 120, volume := none,
    scheduleAheadSec := none }

/-- The player right after construction in a runtime with audio support. -/
def stateFresh : PlayerState := mkPlayer optsBase true

/-- The player after a successful start(): context created, playing,
cursors at 0, nextNoteTime at 0.05. -/
def statePlaying : PlayerState := start 0 id stateFresh

/-- A playlist tune whose melody is one note at pitch 60 and which leaves
bass, tempo and instrument untouched. -/
def tuneB : Tune :=
  { name := some "B", melody := some [noteC], bass := none, tempo := none,
    instrument := none }

/-- Configuration for the bass-reset counterexample: one-note melody (so
every step wraps), a three-note bass, and a one-tune playlist. -/
def optsC2 : Options :=
  { melody := some [noteC], bass := some [noteA, noteA, noteA],
    playlist := some [tuneB], shufflePlaylist := false, tempo := some 120,
    volume := none, scheduleAheadSec := none }

/-- One scheduled step after starting the playlist configuration: the
melody has wrapped once, the tune has advanced, and bassPos is 1. -/
def stateC2 : PlayerState := (scheduleStep id (start 0 id (mkPlayer optsC2 true))).state

/-- A playlist tune carrying a different one-note melody (pitch 72). -/
def tuneNew : Tune :=
  { name := some "New", melody := some [noteHiC], bass := none,
    tempo := none, instrument := none }

/-- setPlaylist called mid-playback while the old melody is active. -/
def stateC4 : PlayerState := setPlaylist (some [tuneNew]) false id statePlaying

/-- Configuration with a three-note melody, for driving the cursor to
position 2. -/
def optsC5 : Options :=
  { melody := some [noteC, noteC, noteC], bass := some [noteC],
    playlist := none, shufflePlaylist := false, tempo := some 120,
    volume := none, scheduleAheadSec := none }

/-- The three-note-melody player right after start(): melody cursor 0. -/
def stateC5start : PlayerState := start 0 id (mkPlayer optsC5 true)

/-- Two scheduled steps after starting the three-note melody: the melody
cursor sits at 2. -/
def stateC5mid : PlayerState :=
  (scheduleStep id (scheduleStep id stateC5start).state).state

/-- setSequence then replaces the melody by a one-note one, leaving the
cursor at 2, beyond the new length. -/
def stateC5bad : PlayerState :=
  setSequence (some { melody := some [noteC], bass := none, tempo := none }) stateC5mid

/-- Configuration with an empty melody. -/
def optsEmptyMel : Options :=
  { melody := none, bass := some [noteC], playlist := none,
    shufflePlaylist := false, tempo := some 120, volume := none,
    scheduleAheadSec := none }

/-- A playing state whose melody is empty. -/
def stateEmptyMel : PlayerState := start 0 id (mkPlayer optsEmptyMel true)

/-- Configuration with a two-note melody and three-note bass and no
playlist, for the cursor-arithmetic witness. -/
def optsC6 : Options :=
  { melody := some [noteC, noteA], bass := some [noteC, noteA, noteHiC],
    playlist := none, shufflePlaylist := false, tempo := some 120,
    volume := none, scheduleAheadSec := none }

/-- The two-note melody / three-note bass player before start(). -/
def stateC6base : PlayerState := mkPlayer optsC6 true

/-- An audio backend oracle that throws on every note, standing for an
audio-subsystem failure inside playOscNote. -/
def failEmit : Emitted → Except String Unit := fun _ => Except.error "boom"

/-- The melody note handed to synthesis on the first scheduled step of
statePlaying: pitch 69, start 0 + 0.05 s, duration 1 * (60/120) * 0.98 =
0.49 s (the unevaluated arithmetic mirrors how the step computes it). -/
def emittedC1m : Emitted :=
  { midi := 69, instrument := "flute", startTime := 0 + 1/20,
    durationSec := 1 * (60/120) * (98/100), gain := 6/100 }

/-- A hand-built playing state whose clock fields are integer-valued
rationals, used by witnesses that must evaluate rational comparisons
(nontrivial rational arithmetic does not reduce definitionally). -/
def stateManual : PlayerState :=
  { audioSupported := true, melody := [noteA], bass := [],
    playlist := none, shufflePlaylist := false, playlistOrder := none,
    playlistPos := 0, currentTuneName := none, tempo := 120,
    scheduleAheadSec := 1, hasCtx := true, volume := JNum.fin 1,
    enabled := true, muted := false, isPlaying := true, timerActive := true,
    melodyPos := 0, bassPos := 0, nextNoteTime := 0,
    currentInstrument := "flute", log := [] }

/-! Helper lemmas: which fields each operation leaves untouched, and the
basic shape of the cursor advances. -/

/-- stop always leaves isPlaying false and touches nothing except the
playing flag, the timer and the log. -/
theorem stop_fields (s : PlayerState) :
    (stop s).isPlaying = false ∧ (stop s).enabled = s.enabled ∧
    (stop s).muted = s.muted ∧ (stop s).audioSupported = s.audioSupported ∧
    (stop s).hasCtx = s.hasCtx ∧ (stop s).melody = s.melody ∧
    (stop s).bass = s.bass ∧ (stop s).playlist = s.playlist ∧
    (stop s).melodyPos = s.melodyPos ∧ (stop s).bassPos = s.bassPos ∧
    (stop s).volume = s.volume := by
  unfold stop logMsg
  split <;> simp_all

/-- setTuneByIndex leaves the transport flags, the playlist bookkeeping
and the clock untouched. -/
theorem setTuneByIndex_flags (i : Nat) (sil : Bool) (s : PlayerState) :
    (setTuneByIndex i sil s).isPlaying = s.isPlaying ∧
    (setTuneByIndex i sil s).hasCtx = s.hasCtx ∧
    (setTuneByIndex i sil s).timerActive = s.timerActive ∧
    (setTuneByIndex i sil s).enabled = s.enabled ∧
    (setTuneByIndex i sil s).muted = s.muted ∧
    (setTuneByIndex i sil s).nextNoteTime = s.nextNoteTime ∧
    (setTuneByIndex i sil s).audioSupported = s.audioSupported ∧
    (setTuneByIndex i sil s).playlist = s.playlist ∧
    (setTuneByIndex i sil s).playlistPos = s.playlistPos ∧
    (setTuneByIndex i sil s).playlistOrder = s.playlistOrder ∧
    (setTuneByIndex i sil s).scheduleAheadSec = s.scheduleAheadSec ∧
    (setTuneByIndex i sil s).shufflePlaylist = s.shufflePlaylist := by
  unfold setTuneByIndex setTempo logMsg
  repeat' split
  all_goals simp_all

/-- setTuneByIndex either loads a tune, resetting both cursors to 0, or
changes nothing at all. -/
theorem setTuneByIndex_cursors (i : Nat) (sil : Bool) (s : PlayerState) :
    ((setTuneByIndex i sil s).melodyPos = 0 ∧ (setTuneByIndex i sil s).bassPos = 0) ∨
    setTuneByIndex i sil s = s := by
  unfold setTuneByIndex setTempo logMsg
  repeat' split
  all_goals simp_all

/-- setTuneByIndex keeps a melody cursor that sits at 0 at 0. -/
theorem setTuneByIndex_melodyPos_zero (i : Nat) (sil : Bool) (s : PlayerState)
    (h : s.melodyPos = 0) : (setTuneByIndex i sil s).melodyPos = 0 := by
  rcases setTuneByIndex_cursors i sil s with ⟨h1, h2⟩ | h1 <;> simp_all

/-- initPlaylistIfNeeded leaves the transport flags and the clock
untouched. -/
theorem initPlaylistIfNeeded_flags (shuf : Shuffler) (s : PlayerState) :
    (initPlaylistIfNeeded shuf s).isPlaying = s.isPlaying ∧
    (initPlaylistIfNeeded shuf s).hasCtx = s.hasCtx ∧
    (initPlaylistIfNeeded shuf s).timerActive = s.timerActive ∧
    (initPlaylistIfNeeded shuf s).enabled = s.enabled ∧
    (initPlaylistIfNeeded shuf s).muted = s.muted ∧
    (initPlaylistIfNeeded shuf s).nextNoteTime = s.nextNoteTime ∧
    (initPlaylistIfNeeded shuf s).audioSupported = s.audioSupported ∧
    (initPlaylistIfNeeded shuf s).playlist = s.playlist ∧
    (initPlaylistIfNeeded shuf s).scheduleAheadSec = s.scheduleAheadSec := by
  unfold initPlaylistIfNeeded
  repeat' apply And.intro
  all_goals repeat' (first | split | dsimp only)
  all_goals simp_all [setTuneByIndex_flags]

/-- initPlaylistIfNeeded keeps a melody cursor that sits at 0 at 0. -/
theorem initPlaylistIfNeeded_melodyPos (shuf : Shuffler) (s : PlayerState)
    (h : s.melodyPos = 0) : (initPlaylistIfNeeded shuf s).melodyPos = 0 := by
  unfold initPlaylistIfNeeded
  repeat' (first | split | dsimp only)
  all_goals simp_all [setTuneByIndex_melodyPos_zero]

/-- nextTune leaves the transport flags and the clock untouched. -/
theorem nextTune_flags (shuf : Shuffler) (s : PlayerState) :
    (nextTune shuf s).isPlaying = s.isPlaying ∧
    (nextTune shuf s).hasCtx = s.hasCtx ∧
    (nextTune shuf s).timerActive = s.timerActive ∧
    (nextTune shuf s).muted = s.muted ∧
    (nextTune shuf s).enabled = s.enabled ∧
    (nextTune shuf s).nextNoteTime = s.nextNoteTime ∧
    (nextTune shuf s).audioSupported = s.audioSupported ∧
    (nextTune shuf s).playlist = s.playlist ∧
    (nextTune shuf s).scheduleAheadSec = s.scheduleAheadSec := by
  unfold nextTune
  repeat' apply And.intro
  all_goals repeat' (first | split | dsimp only)
  all_goals simp_all [setTuneByIndex_flags, initPlaylistIfNeeded_flags]

/-- nextTune keeps a melody cursor that sits at 0 at 0. -/
theorem nextTune_melodyPos (shuf : Shuffler) (s : PlayerState)
    (h : s.melodyPos = 0) : (nextTune shuf s).melodyPos = 0 := by
  unfold nextTune
  repeat' (first | split | dsimp only)
  all_goals simp_all [setTuneByIndex_melodyPos_zero, initPlaylistIfNeeded_melodyPos]

/-- The bass-cursor advance only ever touches bassPos. -/
theorem advanceBassCursor_fields (s : PlayerState) :
    (advanceBassCursor s).melody = s.melody ∧
    (advanceBassCursor s).melodyPos = s.melodyPos ∧
    (advanceBassCursor s).bass = s.bass ∧
    (advanceBassCursor s).playlist = s.playlist ∧
    (advanceBassCursor s).playlistPos = s.playlistPos ∧
    (advanceBassCursor s).playlistOrder = s.playlistOrder ∧
    (advanceBassCursor s).currentTuneName = s.currentTuneName ∧
    (advanceBassCursor s).isPlaying = s.isPlaying ∧
    (advanceBassCursor s).hasCtx = s.hasCtx ∧
    (advanceBassCursor s).timerActive = s.timerActive ∧
    (advanceBassCursor s).nextNoteTime = s.nextNoteTime ∧
    (advanceBassCursor s).scheduleAheadSec = s.scheduleAheadSec := by
  unfold advanceBassCursor
  repeat' apply And.intro
  all_goals repeat' (first | split | dsimp only)

/-- After the bass-cursor advance the bass cursor is in range whenever
the bass sequence is non-empty, whatever the cursor was before. -/
theorem advanceBassCursor_valid (s : PlayerState) :
    (advanceBassCursor s).bass = [] ∨
    (advanceBassCursor s).bassPos < (advanceBassCursor s).bass.length := by
  unfold advanceBassCursor
  repeat' (first | split | dsimp only)
  · rename_i hbe
    exact Or.inl (by simpa using hbe)
  · rename_i hbe hwrap
    refine Or.inr ?_
    show 0 < s.bass.length
    exact List.length_pos.mpr (by simpa using hbe)
  · rename_i hbe hwrap
    refine Or.inr ?_
    show s.bassPos + 1 < s.bass.length
    omega

/-- The melody-cursor advance leaves the transport flags untouched. -/
theorem advanceMelodyCursor_flags (shuf : Shuffler) (s : PlayerState) :
    (advanceMelodyCursor shuf s).isPlaying = s.isPlaying ∧
    (advanceMelodyCursor shuf s).hasCtx = s.hasCtx ∧
    (advanceMelodyCursor shuf s).timerActive = s.timerActive ∧
    (advanceMelodyCursor shuf s).nextNoteTime = s.nextNoteTime ∧
    (advanceMelodyCursor shuf s).scheduleAheadSec = s.scheduleAheadSec := by
  unfold advanceMelodyCursor
  repeat' apply And.intro
  all_goals repeat' (first | split | dsimp only)
  all_goals simp_all [nextTune_flags]

/-- After the melody-cursor advance the melody cursor is in range
whenever the then-active melody is non-empty, whatever the cursor was
before: each step re-establishes cursor validity. -/
theorem advanceMelodyCursor_valid (shuf : Shuffler) (s : PlayerState) :
    (advanceMelodyCursor shuf s).melody = [] ∨
    (advanceMelodyCursor shuf s).melodyPos < (advanceMelodyCursor shuf s).melody.length := by
  unfold advanceMelodyCursor
  repeat' (first | split | dsimp only)
  · rename_i hme
    exact Or.inl (by simpa using hme)
  · have h0 : (nextTune shuf { s with melodyPos := 0 }).melodyPos = 0 :=
      nextTune_melodyPos shuf { s with melodyPos := 0 } rfl
    rcases Nat.eq_zero_or_pos (nextTune shuf { s with melodyPos := 0 }).melody.length
      with hz | hp
    · exact Or.inl (List.length_eq_zero.mp hz)
    · exact Or.inr (by rw [h0]; exact hp)
  · rename_i hme hwrap hsome
    refine Or.inr ?_
    show 0 < s.melody.length
    exact List.length_pos.mpr (by simpa using hme)
  · rename_i hme hwrap
    refine Or.inr ?_
    show s.melodyPos + 1 < s.melody.length
    omega

/-- With no playlist configured, initPlaylistIfNeeded changes nothing. -/
theorem initPlaylistIfNeeded_none (shuf : Shuffler) (s : PlayerState)
    (h : s.playlist = none) : initPlaylistIfNeeded shuf s = s := by
  unfold initPlaylistIfNeeded
  rw [h]

/-- A scheduled step never changes the playing flag. -/
theorem scheduleStep_isPlaying (shuf : Shuffler) (s : PlayerState) :
    (scheduleStep shuf s).state.isPlaying = s.isPlaying := by
  show (advanceBassCursor (advanceMelodyCursor shuf
    { s with nextNoteTime := s.nextNoteTime + stepDurSec s })).isPlaying = s.isPlaying
  rw [(advanceBassCursor_fields _).2.2.2.2.2.2.2.1]
  rw [(advanceMelodyCursor_flags shuf _).1]

/-- With no playlist, the melody-cursor advance is the plain
increment-with-wraparound on the unchanged state. -/
theorem advanceMelodyCursor_no_playlist (shuf : Shuffler) (s : PlayerState)
    (hpl : s.playlist = none) :
    advanceMelodyCursor shuf s =
      (if s.melody.isEmpty then s
       else if s.melodyPos + 1 ≥ s.melody.length then { s with melodyPos := 0 }
       else { s with melodyPos := s.melodyPos + 1 }) := by
  unfold advanceMelodyCursor
  repeat' (first | split | dsimp only)
  all_goals simp_all

/-- With no playlist, a scheduled step keeps melody, bass and the absent
playlist. -/
theorem scheduleStep_no_playlist_keeps (shuf : Shuffler) (s : PlayerState)
    (hpl : s.playlist = none) :
    (scheduleStep shuf s).state.playlist = none ∧
    (scheduleStep shuf s).state.melody = s.melody ∧
    (scheduleStep shuf s).state.bass = s.bass := by
  have hplt : ({ s with nextNoteTime := s.nextNoteTime + stepDurSec s }
      : PlayerState).playlist = none := hpl
  refine ⟨?_, ?_, ?_⟩
  · show (advanceBassCursor (advanceMelodyCursor shuf
      { s with nextNoteTime := s.nextNoteTime + stepDurSec s })).playlist = none
    rw [(advanceBassCursor_fields _).2.2.2.1,
        advanceMelodyCursor_no_playlist shuf _ hplt]
    split_ifs <;> simp [hpl]
  · show (advanceBassCursor (advanceMelodyCursor shuf
      { s with nextNoteTime := s.nextNoteTime + stepDurSec s })).melody = s.melody
    rw [(advanceBassCursor_fields _).1,
        advanceMelodyCursor_no_playlist shuf _ hplt]
    split_ifs <;> simp
  · show (advanceBassCursor (advanceMelodyCursor shuf
      { s with nextNoteTime := s.nextNoteTime + stepDurSec s })).bass = s.bass
    rw [(advanceBassCursor_fields _).2.2.1,
        advanceMelodyCursor_no_playlist shuf _ hplt]
    split_ifs <;> simp

/-- With no playlist, an in-range melody cursor advances to exactly
(pos + 1) mod length. -/
theorem scheduleStep_no_playlist_melodyPos (shuf : Shuffler) (s : PlayerState)
    (hpl : s.playlist = none) (h1 : s.melody ≠ []) (h2 : s.melodyPos < s.melody.length) :
    (scheduleStep shuf s).state.melodyPos = (s.melodyPos + 1) % s.melody.length := by
  have hplt : ({ s with nextNoteTime := s.nextNoteTime + stepDurSec s }
      : PlayerState).playlist = none := hpl
  show (advanceBassCursor (advanceMelodyCursor shuf
    { s with nextNoteTime := s.nextNoteTime + stepDurSec s })).melodyPos
    = (s.melodyPos + 1) % s.melody.length
  rw [(advanceBassCursor_fields _).2.1,
      advanceMelodyCursor_no_playlist shuf _ hplt]
  split_ifs with hc1 hc2
  · simp_all
  · have hc2a : s.melodyPos + 1 ≥ s.melody.length := hc2
    have hlen : s.melodyPos + 1 = s.melody.length := by omega
    show 0 = (s.melodyPos + 1) % s.melody.length
    rw [hlen, Nat.mod_self]
  · have hc2a : ¬ (s.melodyPos + 1 ≥ s.melody.length) := hc2
    show s.melodyPos + 1 = (s.melodyPos + 1) % s.melody.length
    rw [Nat.mod_eq_of_lt (by omega)]

/-- With no playlist, an in-range bass cursor advances to exactly
(pos + 1) mod length. -/
theorem scheduleStep_no_playlist_bassPos (shuf : Shuffler) (s : PlayerState)
    (hpl : s.playlist = none) (h1 : s.bass ≠ []) (h2 : s.bassPos < s.bass.length) :
    (scheduleStep shuf s).state.bassPos = (s.bassPos + 1) % s.bass.length := by
  have hplt : ({ s with nextNoteTime := s.nextNoteTime + stepDurSec s }
      : PlayerState).playlist = none := hpl
  have hu := advanceMelodyCursor_no_playlist shuf
    { s with nextNoteTime := s.nextNoteTime + stepDurSec s } hplt
  have hub : (advanceMelodyCursor shuf
      { s with nextNoteTime := s.nextNoteTime + stepDurSec s }).bass = s.bass := by
    rw [hu]; split_ifs <;> rfl
  have hup : (advanceMelodyCursor shuf
      { s with nextNoteTime := s.nextNoteTime + stepDurSec s }).bassPos = s.bassPos := by
    rw [hu]; split_ifs <;> rfl
  show (advanceBassCursor (advanceMelodyCursor shuf
    { s with nextNoteTime := s.nextNoteTime + stepDurSec s })).bassPos
    = (s.bassPos + 1) % s.bass.length
  unfold advanceBassCursor
  rw [hub, hup]
  split_ifs with hc1 hc2
  · simp_all
  · show 0 = (s.bassPos + 1) % s.bass.length
    have hlen : s.bassPos + 1 = s.bass.length := by omega
    rw [hlen, Nat.mod_self]
  · show s.bassPos + 1 = (s.bassPos + 1) % s.bass.length
    rw [Nat.mod_eq_of_lt (by omega)]

/-- Iterating scheduled steps with no playlist: melody and bass survive
unchanged and each cursor advances by n modulo its own length,
independently of the other. -/
theorem runSteps_no_playlist (shuf : Shuffler) :
    ∀ (n : Nat) (s : PlayerState), s.playlist = none → s.melody ≠ [] → s.bass ≠ [] →
    s.melodyPos < s.melody.length → s.bassPos < s.bass.length →
    (runSteps shuf n s).playlist = none ∧
    (runSteps shuf n s).melody = s.melody ∧
    (runSteps shuf n s).bass = s.bass ∧
    (runSteps shuf n s).melodyPos = (s.melodyPos + n) % s.melody.length ∧
    (runSteps shuf n s).bassPos = (s.bassPos + n) % s.bass.length := by
  intro n
  induction n with
  | zero =>
    intro s hpl hM hB hmp hbp
    refine ⟨hpl, rfl, rfl, ?_, ?_⟩
    · rw [Nat.add_zero, Nat.mod_eq_of_lt hmp]; rfl
    · rw [Nat.add_zero, Nat.mod_eq_of_lt hbp]; rfl
  | succ n ih =>
    intro s hpl hM hB hmp hbp
    have hkeep := scheduleStep_no_playlist_keeps shuf s hpl
    have hmp1 := scheduleStep_no_playlist_melodyPos shuf s hpl hM hmp
    have hbp1 := scheduleStep_no_playlist_bassPos shuf s hpl hB hbp
    have hMlen : 0 < s.melody.length := List.length_pos.mpr hM
    have hBlen : 0 < s.bass.length := List.length_pos.mpr hB
    have hih := ih (scheduleStep shuf s).state hkeep.1
      (by rw [hkeep.2.1]; exact hM) (by rw [hkeep.2.2]; exact hB)
      (by rw [hmp1, hkeep.2.1]; exact Nat.mod_lt _ hMlen)
      (by rw [hbp1, hkeep.2.2]; exact Nat.mod_lt _ hBlen)
    have hrun : runSteps shuf (n + 1) s = runSteps shuf n (scheduleStep shuf s).state := rfl
    rw [hrun]
    refine ⟨hih.1, ?_, ?_, ?_, ?_⟩
    · rw [hih.2.1, hkeep.2.1]
    · rw [hih.2.2.1, hkeep.2.2]
    · rw [hih.2.2.2.1, hmp1, hkeep.2.1, Nat.mod_add_mod]
      have harith : s.melodyPos + 1 + n = s.melodyPos + (n + 1) := by omega
      rw [harith]
    · rw [hih.2.2.2.2, hbp1, hkeep.2.2, Nat.mod_add_mod]
      have harith : s.bassPos + 1 + n = s.bassPos + (n + 1) := by omega
      rw [harith]

/-- A successful start() with no playlist: context created, playing, both
cursors at 0, sequences untouched. -/
theorem start_ready (now : ℚ) (shuf : Shuffler) (s : PlayerState)
    (hp : s.isPlaying = false) (he : s.enabled = true) (hm : s.muted = false)
    (hpl : s.playlist = none) (ha : s.audioSupported = true) :
    (start now shuf s).melody = s.melody ∧
    (start now shuf s).bass = s.bass ∧
    (start now shuf s).playlist = none ∧
    (start now shuf s).melodyPos = 0 ∧
    (start now shuf s).bassPos = 0 ∧
    (start now shuf s).isPlaying = true ∧
    (start now shuf s).hasCtx = true := by
  unfold start ensure
  by_cases hc : s.hasCtx = true
  all_goals simp_all [initPlaylistIfNeeded_none, logMsg]

/-- When the scheduling loop aborts with an exception, the state it
carries has the same playing flag as the state the loop started from
(iterating steps never touches the flag, and the throw happens before
any mutation of the current iteration). -/
theorem scheduleTickAux_error_isPlaying (emit : Emitted → Except String Unit)
    (shuf : Shuffler) (now : ℚ) :
    ∀ (fuel : Nat) (s : PlayerState) (msg : String) (se : PlayerState),
    scheduleTickAux emit shuf now fuel s = Except.error (msg, se) →
    se.isPlaying = s.isPlaying := by
  intro fuel
  induction fuel with
  | zero =>
    intro s msg se h
    exact absurd h (by simp [scheduleTickAux])
  | succ n ih =>
    intro s msg se h
    unfold scheduleTickAux at h
    split at h
    · dsimp only at h
      split at h
      · cases h
        rfl
      · split at h
        · cases h
          rfl
        · have := ih (scheduleStep shuf s).state msg se h
          rw [this, scheduleStep_isPlaying]
    · exact absurd h (by simp)

/-! The claims. -/

/-- C9: for every pitch index p, the frequency used for synthesis is
440 * 2 ^ ((p - 69) / 12) Hz, and pitch index 69 maps to exactly
440.0 Hz. -/
theorem c9_equal_temperament :
    midiToFreq 69 = 440 ∧
    ∀ p : Int, midiToFreq p = 440 * (2 : ℝ) ^ (((p : ℝ) - 69) / 12) := by
  refine ⟨?_, fun p => rfl⟩
  have h : (((69 : Int) : ℝ) - 69) / 12 = 0 := by norm_num
  unfold midiToFreq
  rw [h, Real.rpow_zero, mul_one]

/-- C10 counterexample: NaN is a JavaScript number (typeof NaN is
number), clamp01 leaves it untouched (both comparisons against NaN are
false), so setVolume(NaN) stores NaN, which is not a value clamped into
[0, 1]. -/
theorem c10_setVolume_nan_cex :
    (setVolume (some JNum.nan) stateFresh).volume = JNum.nan ∧
    specVolumeInUnit ((setVolume (some JNum.nan) stateFresh).volume) = false := by
  decide

/-- C10 amended: for a finite number v, setVolume stores v clamped into
[0, 1]; for NaN it stores NaN; for a non-number it re-clamps the current
volume, which leaves it unchanged whenever the stored volume is already a
clamp01 fixed point (as it is in every reachable state); setVolume never
raises (it is a total function of the state). -/
theorem c10_setVolume_clamps (s : PlayerState) (q : ℚ) :
    (setVolume (some (JNum.fin q)) s).volume = JNum.fin (min 1 (max 0 q)) ∧
    (setVolume (some JNum.nan) s).volume = JNum.nan ∧
    (clamp01 s.volume = s.volume → (setVolume none s).volume = s.volume) := by
  refine ⟨?_, ?_, ?_⟩
  · show clamp01 (JNum.fin q) = JNum.fin (min 1 (max 0 q))
    unfold clamp01 JNum.jlt
    rcases lt_or_le q 0 with h0 | h0
    · have hmax : min 1 (max 0 q) = 0 := by
        rw [max_eq_left h0.le]
        norm_num
      simp [h0, hmax]
    · rcases lt_or_le 1 q with h1 | h1
      · have hmax : min 1 (max 0 q) = 1 := by
          rw [max_eq_right h0]
          exact min_eq_left h1.le
        simp [not_lt.mpr h0, h1, hmax]
      · have hmax : min 1 (max 0 q) = q := by
          rw [max_eq_right h0]
          exact min_eq_right h1
        simp [not_lt.mpr h0, not_lt.mpr h1, hmax]
  · show clamp01 JNum.nan = JNum.nan
    decide
  · intro h
    show clamp01 s.volume = s.volume
    exact h

/-- C10 witness: the amended statement at volume 3, at NaN and at a
non-number argument, on a concrete player state. -/
theorem c10_setVolume_clamps_witness :
    (setVolume (some (JNum.fin 3)) stateManual).volume = JNum.fin (min 1 (max 0 3)) ∧
    (setVolume (some JNum.nan) stateManual).volume = JNum.nan ∧
    (setVolume none stateManual).volume = stateManual.volume := by
  have h := c10_setVolume_clamps stateManual 3
  exact ⟨h.1, h.2.1, h.2.2 (by decide)⟩

/-- C3 counterexample: after destroy() the context is released, yet a
later start() recreates a context and playback resumes, so the instance
is reusable and the claim as stated is false. -/
theorem c3_destroy_not_permanent_cex :
    (destroy statePlaying).hasCtx = false ∧
    (start 0 id (destroy statePlaying)).isPlaying = true ∧
    (start 0 id (destroy statePlaying)).hasCtx = true := by
  decide

/-- C3 amended: destroy() stops playback and releases the audio context,
but the instance stays reusable: while it is enabled, unmuted and the
runtime supports audio, a subsequent start() creates a fresh context and
playback resumes. -/
theorem c3_destroy_then_start_resumes (s : PlayerState) (now : ℚ) (shuf : Shuffler)
    (he : s.enabled = true) (hm : s.muted = false) (ha : s.audioSupported = true) :
    (destroy s).isPlaying = false ∧ (destroy s).hasCtx = false ∧
    (start now shuf (destroy s)).isPlaying = true ∧
    (start now shuf (destroy s)).hasCtx = true := by
  have hd1 : (destroy s).isPlaying = false := (stop_fields s).1
  have hd2 : (destroy s).hasCtx = false := rfl
  have hde : (destroy s).enabled = true := by
    rw [show (destroy s).enabled = (stop s).enabled from rfl, (stop_fields s).2.1, he]
  have hdm : (destroy s).muted = false := by
    rw [show (destroy s).muted = (stop s).muted from rfl, (stop_fields s).2.2.1, hm]
  have hda : (destroy s).audioSupported = true := by
    rw [show (destroy s).audioSupported = (stop s).audioSupported from rfl,
        (stop_fields s).2.2.2.1, ha]
  refine ⟨hd1, hd2, ?_, ?_⟩
  · simp only [start, ensure, hd1, hde, hdm, hd2, hda]
    simp [logMsg]
  · simp only [start, ensure, hd1, hde, hdm, hd2, hda]
    simp [initPlaylistIfNeeded_flags, logMsg]

/-- C3 witness: the amended statement on the concrete playing player. -/
theorem c3_destroy_then_start_resumes_witness :
    (destroy statePlaying).isPlaying = false ∧
    (destroy statePlaying).hasCtx = false ∧
    (start 0 id (destroy statePlaying)).isPlaying = true ∧
    (start 0 id (destroy statePlaying)).hasCtx = true :=
  c3_destroy_then_start_resumes statePlaying 0 id (by decide) (by decide) (by decide)

/-- C7: setMuted(true) while playing forces an implicit stop (isPlaying
becomes false), and a subsequent start() while still muted is a no-op
(up to the skip-diagnostic log line): the state stays not-playing. -/
theorem c7_mute_stops (s : PlayerState) (now : ℚ) (shuf : Shuffler)
    (hp : s.isPlaying = true) :
    (setMuted true s).isPlaying = false ∧
    (start now shuf (setMuted true s)).isPlaying = false ∧
    stripLog (start now shuf (setMuted true s)) = stripLog (setMuted true s) := by
  have h1 : setMuted true s = stop { s with muted := true } := rfl
  have hply : (setMuted true s).isPlaying = false := by
    rw [h1]
    exact (stop_fields _).1
  have hmut : (setMuted true s).muted = true := by
    rw [h1, (stop_fields { s with muted := true }).2.2.1]
  refine ⟨hply, ?_, ?_⟩
  · unfold start
    rw [hply, hmut]
    by_cases hen : (setMuted true s).enabled = true
    · rw [hen]
      simp [logMsg, hply]
    · rw [Bool.not_eq_true] at hen
      rw [hen]
      simp [logMsg, hply]
  · unfold start
    rw [hply, hmut]
    by_cases hen : (setMuted true s).enabled = true
    · rw [hen]
      simp [stripLog, logMsg]
    · rw [Bool.not_eq_true] at hen
      rw [hen]
      simp [stripLog, logMsg]

/-- C7 witness: the statement on the concrete playing player. -/
theorem c7_mute_stops_witness :
    (setMuted true statePlaying).isPlaying = false ∧
    (start 0 id (setMuted true statePlaying)).isPlaying = false ∧
    stripLog (start 0 id (setMuted true statePlaying)) = stripLog (setMuted true statePlaying) :=
  c7_mute_stops statePlaying 0 id (by decide)

/-- C1 counterexample: with tempo 120 and a one-beat melody note,
durationBeats * (60 / tempoBPM) is 0.5 s, but the note handed to
synthesis carries 0.49 s: the scheduler scales the emitted melody
duration by 0.98 (and bass by 0.95). -/
theorem c1_duration_cex :
    (scheduleStep id statePlaying).melNote.map Emitted.durationSec = some (49/100) ∧
    melodyDurBeats statePlaying * (60 / statePlaying.tempo) = 1/2 ∧
    ((49 : ℚ)/100) ≠ (1/2 : ℚ) := by
  have hmel : (scheduleStep id statePlaying).melNote =
      some { midi := 69, instrument := "flute", startTime := 0 + 1/20,
             durationSec := 1 * (60/120) * (98/100), gain := 6/100 } := rfl
  refine ⟨?_, ?_, by norm_num⟩
  · rw [hmel]
    show some ((1 : ℚ) * (60/120) * (98/100)) = some (49/100)
    exact congrArg some (by norm_num)
  · have hb : melodyDurBeats statePlaying = 1 := rfl
    have ht : statePlaying.tempo = 120 := rfl
    rw [hb, ht]
    norm_num

/-- C1 amended: every scheduled step emits at most one melody and one
bass note, each starting at the absolute time nextNoteTime; the melody
note carries durationBeats * (60 / tempoBPM) * 0.98 seconds and the bass
note durationBeats * (60 / tempoBPM) * 0.95 seconds, durationBeats being
the respective note duration field with default 1 (the cursor itself
advances by the unscaled durBeats * (60 / tempoBPM)). -/
theorem c1_note_timing (s : PlayerState) (shuf : Shuffler) :
    (∀ e, (scheduleStep shuf s).melNote = some e →
        e.startTime = s.nextNoteTime ∧
        e.durationSec = melodyDurBeats s * (60 / s.tempo) * (98/100)) ∧
    (∀ e, (scheduleStep shuf s).bassNote = some e →
        e.startTime = s.nextNoteTime ∧
        e.durationSec = bassDurBeats s * (60 / s.tempo) * (95/100)) := by
  constructor
  · intro e he
    replace he : melodyEmission s = some e := he
    unfold melodyEmission at he
    split at he
    · exact absurd he (by simp)
    · split at he
      · exact absurd he (by simp)
      · split at he
        · simp only [Option.some.injEq] at he
          subst he
          exact ⟨rfl, rfl⟩
        · exact absurd he (by simp)
  · intro e he
    replace he : bassEmission s = some e := he
    unfold bassEmission at he
    split at he
    · exact absurd he (by simp)
    · split at he
      · exact absurd he (by simp)
      · split at he
        · simp only [Option.some.injEq] at he
          subst he
          exact ⟨rfl, rfl⟩
        · exact absurd he (by simp)

/-- C1 witness: the amended statement applied to the first melody note
emitted by the concrete playing player. -/
theorem c1_note_timing_witness :
    emittedC1m.startTime = statePlaying.nextNoteTime ∧
    emittedC1m.durationSec = melodyDurBeats statePlaying * (60 / statePlaying.tempo) * (98/100) :=
  (c1_note_timing statePlaying id).1 emittedC1m rfl

/-- C2 counterexample: one step after starting the playlist
configuration the bass cursor is 1 with a three-note bass; at the next
step the melody (length 1) wraps and the tune advances, and the bass
cursor comes out as 1 again instead of the independent (1 + 1) mod 3 = 2:
tune advancement reset it. -/
theorem c2_bass_reset_cex :
    stateC2.bassPos = 1 ∧ stateC2.bass.length = 3 ∧
    (stateC2.bassPos + 1) % stateC2.bass.length = 2 ∧
    (scheduleStep id stateC2).state.bassPos = 1 := by
  decide

/-- C2 amended: when the melody wraps with a playlist configured, the
tune advance goes through setTuneByIndex, which resets both the melody
and the bass cursor to 0 (the bass cursor is then incremented within the
same step when the bass is non-empty); conversely, while the melody does
not wrap, a step never advances the tune, whatever the bass cursor does. -/
theorem c2_tune_advance_resets_bass (s : PlayerState) (shuf : Shuffler) :
    (∀ (pl : List Tune) (i : Nat) (t : Tune) (sil : Bool),
      s.playlist = some pl → pl.isEmpty = false → pl.get? i = some t →
      (setTuneByIndex i sil s).bassPos = 0 ∧ (setTuneByIndex i sil s).melodyPos = 0) ∧
    (s.melody.isEmpty = false → s.melodyPos + 1 < s.melody.length →
      (scheduleStep shuf s).state.playlistPos = s.playlistPos ∧
      (scheduleStep shuf s).state.currentTuneName = s.currentTuneName ∧
      (scheduleStep shuf s).state.melody = s.melody) := by
  constructor
  · intro pl i t sil hpl hne hget
    unfold setTuneByIndex setTempo
    rw [hpl]
    dsimp only
    rw [hget]
    repeat' (first | split | dsimp only)
    all_goals simp_all [logMsg]
  · intro hme hlt
    have hadv : advanceMelodyCursor shuf { s with nextNoteTime := s.nextNoteTime + stepDurSec s }
        = { s with nextNoteTime := s.nextNoteTime + stepDurSec s,
                   melodyPos := s.melodyPos + 1 } := by
      unfold advanceMelodyCursor
      repeat' (first | split | dsimp only)
      all_goals simp_all
      all_goals omega
    refine ⟨?_, ?_, ?_⟩
    · show (advanceBassCursor (advanceMelodyCursor shuf
        { s with nextNoteTime := s.nextNoteTime + stepDurSec s })).playlistPos = s.playlistPos
      rw [(advanceBassCursor_fields _).2.2.2.2.1, hadv]
    · show (advanceBassCursor (advanceMelodyCursor shuf
        { s with nextNoteTime := s.nextNoteTime + stepDurSec s })).currentTuneName
        = s.currentTuneName
      rw [(advanceBassCursor_fields _).2.2.2.2.2.2.1, hadv]
    · show (advanceBassCursor (advanceMelodyCursor shuf
        { s with nextNoteTime := s.nextNoteTime + stepDurSec s })).melody = s.melody
      rw [(advanceBassCursor_fields _).1, hadv]

/-- C2 witness: both halves of the amended statement on concrete states:
loading tune 0 of the one-tune playlist resets both cursors, and a step
of the three-note-melody player at cursor 0 does not advance the tune. -/
theorem c2_tune_advance_resets_bass_witness :
    ((setTuneByIndex 0 false stateC2).bassPos = 0 ∧
     (setTuneByIndex 0 false stateC2).melodyPos = 0) ∧
    ((scheduleStep id stateC5start).state.playlistPos = stateC5start.playlistPos ∧
     (scheduleStep id stateC5start).state.currentTuneName = stateC5start.currentTuneName ∧
     (scheduleStep id stateC5start).state.melody = stateC5start.melody) :=
  ⟨(c2_tune_advance_resets_bass stateC2 id).1 [tuneB] 0 tuneB false
      (by decide) (by decide) (by decide),
   (c2_tune_advance_resets_bass stateC5start id).2 (by decide) (by decide)⟩

/-- C4 counterexample: setPlaylist during playback replaces the
catalogue, but the next scheduled note still comes from the previously
active melody (pitch 69), not from the new playlist tune (pitch 72). -/
theorem c4_old_melody_still_plays_cex :
    stateC4.playlist = some [tuneNew] ∧
    stateC4.melody = statePlaying.melody ∧
    (scheduleStep id stateC4).melNote.map Emitted.midi = some 69 ∧
    ((tuneNew.melody.getD []).get? 0).bind Note.midi = some 72 ∧
    (scheduleStep id stateC4).melNote.map Emitted.midi ≠ some 72 := by
  decide

/-- C4 amended: setPlaylist(tunes, shuffle) may be called at any time and
replaces the catalogue and traversal order immediately; however, when the
active melody is non-empty it keeps playing with its cursor intact, so
the new playlist takes over only when that melody next wraps (only an
empty active melody is replaced immediately). -/
theorem c4_setPlaylist_keeps_active_melody (s : PlayerState) (pl : List Tune) (sh : Bool)
    (shuf : Shuffler) (hne : pl.isEmpty = false) :
    (setPlaylist (some pl) sh shuf s).playlist = some pl ∧
    (setPlaylist (some pl) sh shuf s).playlistOrder =
      some (if sh then shuf (List.range pl.length) else List.range pl.length) ∧
    (s.melody.isEmpty = false →
      (setPlaylist (some pl) sh shuf s).melody = s.melody ∧
      (setPlaylist (some pl) sh shuf s).melodyPos = s.melodyPos) := by
  refine ⟨?_, ?_, fun hme => ⟨?_, ?_⟩⟩
  all_goals unfold setPlaylist initPlaylistIfNeeded
  all_goals repeat' (first | split | dsimp only)
  all_goals simp_all [setTuneByIndex_flags, logMsg]

/-- C4 witness: the amended statement on the concrete playing player and
the one-tune replacement playlist. -/
theorem c4_setPlaylist_keeps_active_melody_witness :
    (setPlaylist (some [tuneNew]) false id statePlaying).playlist = some [tuneNew] ∧
    (setPlaylist (some [tuneNew]) false id statePlaying).playlistOrder =
      some (if false then id (List.range [tuneNew].length) else List.range [tuneNew].length) ∧
    ((setPlaylist (some [tuneNew]) false id statePlaying).melody = statePlaying.melody ∧
     (setPlaylist (some [tuneNew]) false id statePlaying).melodyPos = statePlaying.melodyPos) :=
  ⟨(c4_setPlaylist_keeps_active_melody statePlaying [tuneNew] false id (by decide)).1,
   (c4_setPlaylist_keeps_active_melody statePlaying [tuneNew] false id (by decide)).2.1,
   (c4_setPlaylist_keeps_active_melody statePlaying [tuneNew] false id (by decide)).2.2
     (by decide)⟩

/-- C5 counterexample: from a freshly started player with a three-note
melody, two scheduled steps put the melody cursor at 2; a setSequence
call replacing the melody by a one-note one (allowed at any time) leaves
the cursor at 2, which is not a valid index into the active melody of
length 1 -- the claimed invariant fails in this reachable state. -/
theorem c5_cursor_out_of_range_cex :
    stateC5bad.melody.length = 1 ∧ stateC5bad.melodyPos = 2 ∧
    ¬ (stateC5bad.melodyPos < stateC5bad.melody.length) := by
  decide

/-- C5 amended: control operations can leave a cursor transiently out of
range when they shrink a sequence mid-playback, but this is harmless:
every scheduled step ends with both cursors valid for the then-active
non-empty sequences (an out-of-range read yields no note and the cursor
is reset), and an empty melody or bass sequence contributes no note to
the step -- never an error (every operation is total). -/
theorem c5_step_restores_cursors (s : PlayerState) (shuf : Shuffler) :
    ((scheduleStep shuf s).state.melody ≠ [] →
      (scheduleStep shuf s).state.melodyPos < (scheduleStep shuf s).state.melody.length) ∧
    ((scheduleStep shuf s).state.bass ≠ [] →
      (scheduleStep shuf s).state.bassPos < (scheduleStep shuf s).state.bass.length) ∧
    (s.melody = [] → (scheduleStep shuf s).melNote = none) ∧
    (s.bass = [] → (scheduleStep shuf s).bassNote = none) := by
  refine ⟨?_, ?_, ?_, ?_⟩
  · intro h
    replace h : (advanceBassCursor (advanceMelodyCursor shuf
      { s with nextNoteTime := s.nextNoteTime + stepDurSec s })).melody ≠ [] := h
    have hm := (advanceBassCursor_fields (advanceMelodyCursor shuf
      { s with nextNoteTime := s.nextNoteTime + stepDurSec s })).1
    have hpp := (advanceBassCursor_fields (advanceMelodyCursor shuf
      { s with nextNoteTime := s.nextNoteTime + stepDurSec s })).2.1
    rw [hm] at h
    rcases advanceMelodyCursor_valid shuf
      { s with nextNoteTime := s.nextNoteTime + stepDurSec s } with hz | hlt
    · exact absurd hz h
    · show (advanceBassCursor (advanceMelodyCursor shuf
        { s with nextNoteTime := s.nextNoteTime + stepDurSec s })).melodyPos
        < (advanceBassCursor (advanceMelodyCursor shuf
        { s with nextNoteTime := s.nextNoteTime + stepDurSec s })).melody.length
      rw [hm, hpp]
      exact hlt
  · intro h
    replace h : (advanceBassCursor (advanceMelodyCursor shuf
      { s with nextNoteTime := s.nextNoteTime + stepDurSec s })).bass ≠ [] := h
    rcases advanceBassCursor_valid (advanceMelodyCursor shuf
      { s with nextNoteTime := s.nextNoteTime + stepDurSec s }) with hz | hlt
    · exact absurd hz h
    · exact hlt
  · intro h
    show melodyEmission s = none
    unfold melodyEmission currentMelodyNote
    simp [h]
  · intro h
    show bassEmission s = none
    unfold bassEmission currentBassNote
    simp [h]

/-- C5 witness: the step after the out-of-range state has a valid melody
cursor again, and a step of the empty-melody player emits no melody
note. -/
theorem c5_step_restores_cursors_witness :
    (scheduleStep id stateC5bad).state.melodyPos
      < (scheduleStep id stateC5bad).state.melody.length ∧
    (scheduleStep id stateEmptyMel).melNote = none :=
  ⟨(c5_step_restores_cursors stateC5bad id).1 (by decide),
   (c5_step_restores_cursors stateEmptyMel id).2.2.1 (by decide)⟩

/-- C6: starting playback with no playlist, melody length M > 0 and bass
length B > 0, after N scheduled steps the melody cursor is N mod M and
the bass cursor is N mod B, each wrapping on its own length
independently of the other. -/
theorem c6_cursors_mod (s : PlayerState) (now : ℚ) (shuf : Shuffler) (n : Nat)
    (hpl : s.playlist = none) (hM : s.melody ≠ []) (hB : s.bass ≠ [])
    (hp : s.isPlaying = false) (he : s.enabled = true) (hm : s.muted = false)
    (ha : s.audioSupported = true) :
    (runSteps shuf n (start now shuf s)).melodyPos = n % s.melody.length ∧
    (runSteps shuf n (start now shuf s)).bassPos = n % s.bass.length := by
  obtain ⟨h1, h2, h3, h4, h5, h6, h7⟩ := start_ready now shuf s hp he hm hpl ha
  have hMlen : 0 < s.melody.length := List.length_pos.mpr hM
  have hBlen : 0 < s.bass.length := List.length_pos.mpr hB
  have hrun := runSteps_no_playlist shuf n (start now shuf s) h3
    (by rw [h1]; exact hM) (by rw [h2]; exact hB)
    (by rw [h4, h1]; exact hMlen) (by rw [h5, h2]; exact hBlen)
  constructor
  · rw [hrun.2.2.2.1, h4, h1, Nat.zero_add]
  · rw [hrun.2.2.2.2, h5, h2, Nat.zero_add]

/-- C6 witness: with melody length 2 and bass length 3, five steps after
start() the melody cursor is 5 mod 2 = 1 and the bass cursor is
5 mod 3 = 2. -/
theorem c6_cursors_mod_witness :
    ((runSteps id 5 (start 0 id stateC6base)).melodyPos = 5 % stateC6base.melody.length ∧
     (runSteps id 5 (start 0 id stateC6base)).bassPos = 5 % stateC6base.bass.length) ∧
    5 % stateC6base.melody.length = 1 ∧ 5 % stateC6base.bass.length = 2 :=
  ⟨c6_cursors_mod stateC6base 0 id 5 (by decide) (by decide) (by decide)
      (by decide) (by decide) (by decide) (by decide),
   by decide, by decide⟩

/-- C8: an exception thrown while emitting scheduled notes is caught by
the scheduler callback, reported to the logging sink, and playback is
fail-stopped: isPlaying becomes false and the timer is cancelled. The
callback itself always returns a state (it is total), so no exception
escapes to the host. -/
theorem c8_scheduling_error_failstop (emit : Emitted → Except String Unit)
    (shuf : Shuffler) (now : ℚ) (fuel : Nat) (s : PlayerState)
    (msg : String) (se : PlayerState)
    (hc : s.hasCtx = true) (hp : s.isPlaying = true)
    (herr : scheduleTickAux emit shuf now fuel s = Except.error (msg, se)) :
    (scheduleTick emit shuf now fuel s).isPlaying = false ∧
    (scheduleTick emit shuf now fuel s).timerActive = false ∧
    ("schedule error: " ++ msg) ∈ (scheduleTick emit shuf now fuel s).log := by
  have hse : se.isPlaying = true := by
    rw [scheduleTickAux_error_isPlaying emit shuf now fuel s msg se herr, hp]
  have hres : scheduleTick emit shuf now fuel s
      = stop (logMsg ("schedule error: " ++ msg) se) := by
    unfold scheduleTick
    rw [hc, hp, herr]
    simp
  have hlp : (logMsg ("schedule error: " ++ msg) se).isPlaying = true := hse
  rw [hres]
  refine ⟨(stop_fields _).1, ?_, ?_⟩
  · unfold stop
    rw [hlp]
    simp [logMsg]
  · unfold stop
    rw [hlp]
    simp [logMsg]

/-- C8 witness: a backend that throws on every note, on a concrete
playing state whose first note is due: the tick stops playback, cancels
the timer and logs the error. -/
theorem c8_scheduling_error_failstop_witness :
    (scheduleTick failEmit id 0 1 stateManual).isPlaying = false ∧
    (scheduleTick failEmit id 0 1 stateManual).timerActive = false ∧
    ("schedule error: " ++ "boom") ∈ (scheduleTick failEmit id 0 1 stateManual).log :=
  c8_scheduling_error_failstop failEmit id 0 1 stateManual "boom" stateManual
    rfl rfl (by
      unfold scheduleTickAux
      rw [if_pos (show stateManual.nextNoteTime < 0 + stateManual.scheduleAheadSec by
        show (0 : ℚ) < 0 + 1
        norm_num)]
      rfl)

end Chiptune
